import Mathlib

/-
Verification development for the freesasa-rs result-tree subsystem.

The Rust source is shallowly embedded as executable Lean definitions:

 * `NodeType`, `NodeArea`, the property records and `Node` mirror
   `src/result/node/node_.rs` and `src/result/node/properties.rs`;
 * `NodeUid` (a structure) mirrors `src/uids.rs`;
 * `NativeNode`/`NativeForest` model the pointer-linked tree handed out by
   the external freesasa engine: one `NativeFields` record per node holds
   the values returned by the typed C accessors, and the forest holds the
   first-child / next-sibling structure;
 * `SasaTree.from_ptr`, `SasaTree.recursive_add_node` and
   `SasaTree.compare_residues` mirror `src/result/tree.rs`;
 * a function returning `Option α` models a fallible Rust computation whose
   failure is a process panic (`unwrap`, `expect`, `panic!`): `none` means
   the Rust code panics, it does not mean a typed error is returned.

Floating-point area values are modelled as rationals: every claim under
consideration only subtracts, negates and compares equal finite values,
operations on which IEEE doubles agree with exact arithmetic.  Strings are
modelled as ASCII strings; `char::is_numeric` agrees with `Char.isDigit`
there, and byte indices of `&str` slicing coincide with character indices.
-/

/-- Node kinds, mirroring `NodeType` in `src/result/node/node_.rs`
(`None`, `Atom`, `Residue`, `Chain`, `Structure`, `Result`, `Root`). -/
inductive NodeType where
  | None
  | Atom
  | Residue
  | Chain
  | Structure
  | Result
  | Root
deriving DecidableEq

/-- SASA area record, mirroring `NodeArea` in `src/result/node/node_.rs`:
six floating-point components, modelled as rationals. -/
structure NodeArea where
  total : ℚ
  main_chain : ℚ
  side_chain : ℚ
  polar : ℚ
  apolar : ℚ
  unknown : ℚ
deriving DecidableEq

/-- Pointwise subtraction, mirroring `impl Sub for &NodeArea`
(`src/result/node/node_.rs`, lines 133-146). -/
def NodeArea.sub (a b : NodeArea) : NodeArea :=
  { total := a.total - b.total
    main_chain := a.main_chain - b.main_chain
    side_chain := a.side_chain - b.side_chain
    polar := a.polar - b.polar
    apolar := a.apolar - b.apolar
    unknown := a.unknown - b.unknown }

/-- Pointwise addition, mirroring `impl Add for &NodeArea`
(`src/result/node/node_.rs`, lines 163-176). -/
def NodeArea.add (a b : NodeArea) : NodeArea :=
  { total := a.total + b.total
    main_chain := a.main_chain + b.main_chain
    side_chain := a.side_chain + b.side_chain
    polar := a.polar + b.polar
    apolar := a.apolar + b.apolar
    unknown := a.unknown + b.unknown }

/-- An all-zero area record, convenient for building concrete inputs. -/
def NodeArea.zero : NodeArea :=
  { total := 0, main_chain := 0, side_chain := 0, polar := 0, apolar := 0, unknown := 0 }

/-- An area record with a given total and zero in the remaining components,
convenient for building concrete inputs. -/
def NodeArea.ofTotal (t : ℚ) : NodeArea :=
  { total := t, main_chain := 0, side_chain := 0, polar := 0, apolar := 0, unknown := 0 }

/-- Unique node identifier, mirroring the `NodeUid` structure of
`src/uids.rs` (lines 17-51).  The field order matters: the derived Rust
`Ord`/`PartialOrd` compare fields in declaration order, `structure` first.
`structure` is the model number of the enclosing structure node; `res_id`
is the pair of residue number and optional insertion code. -/
structure NodeUid where
  structure_ : Int
  chain : Option Char
  res_id : Option (Int × Option Char)
  atom_name : Option String
deriving DecidableEq

/-- Comparison of machine integers, modelling Rust `Ord for i32`. -/
def cmpInt (a b : Int) : Ordering :=
  if a < b then Ordering.lt else if a = b then Ordering.eq else Ordering.gt

/-- Comparison of characters by code point, modelling Rust `Ord for char`. -/
def cmpChar (a b : Char) : Ordering :=
  cmpInt a.toNat b.toNat

/-- Lifting a comparison to `Option`, modelling Rust `Ord for Option<T>`
(`None` sorts before `Some`). -/
def cmpOption (f : α → α → Ordering) : Option α → Option α → Ordering
  | none, none => Ordering.eq
  | none, some _ => Ordering.lt
  | some _, none => Ordering.gt
  | some a, some b => f a b

/-- Lexicographic comparison of pairs, modelling Rust `Ord` for tuples. -/
def cmpPair (f : α → α → Ordering) (g : β → β → Ordering) (a b : α × β) : Ordering :=
  (f a.1 b.1).then (g a.2 b.2)

/-- Lexicographic comparison of character lists, modelling Rust
`Ord for str`. -/
def cmpCharList : List Char → List Char → Ordering
  | [], [] => Ordering.eq
  | [], _ :: _ => Ordering.lt
  | _ :: _, [] => Ordering.gt
  | a :: as_, b :: bs => (cmpChar a b).then (cmpCharList as_ bs)

/-- Comparison of strings, modelling Rust `Ord for String`. -/
def cmpString (a b : String) : Ordering :=
  cmpCharList a.data b.data

/-- Derived lexicographic ordering of `NodeUid`, modelling the Rust
`#[derive(PartialOrd, Ord)]` on the structure of `src/uids.rs`: fields are
compared in declaration order, so `structure` takes highest precedence. -/
def NodeUid.cmp (u v : NodeUid) : Ordering :=
  (cmpInt u.structure_ v.structure_).then
    ((cmpOption cmpChar u.chain v.chain).then
      ((cmpOption (cmpPair cmpInt (cmpOption cmpChar)) u.res_id v.res_id).then
        (cmpOption cmpString u.atom_name v.atom_name)))

/-- Textual rendering of a `NodeUid`, mirroring `impl Display for NodeUid`
(`src/uids.rs`, lines 212-246).  The rendering starts with
`format!("{}:", self.structure)` and then appends chain, residue and atom
components when present, returning early at the first absent one. -/
def NodeUid.display (u : NodeUid) : String :=
  let s0 := toString u.structure_ ++ (":")
  match u.chain with
  | none => s0
  | some c =>
    let s1 := s0.push c
    match u.res_id with
    | none => s1
    | some ri =>
      let s2 := (s1.push (':')) ++ toString ri.1
      let s3 := match ri.2 with
                | some code => s2.push code
                | none => s2
      match u.atom_name with
      | none => s3
      | some an => (s3.push (':')) ++ an

/-- Serialized form of a `NodeUid`, mirroring `impl Serialize for NodeUid`
(`src/uids.rs`, lines 248-255), which emits `self.to_string()` as a plain
string. -/
def NodeUid.serializedText (u : NodeUid) : String :=
  u.display

/-- Modelled from the spec: the `ChainUID` constructor used by
`new_chain_node` in `src/result/node/node_.rs` is declared in a module
missing from the sources; following spec section 3 (structural value
identity) and the call sites `ChainUID::new(&properties.structure, id)`,
it is a record of the structure model number and the chain character. -/
structure ChainUID where
  structure_ : Int
  id : Char
deriving DecidableEq

/-- Modelled from the spec: the `ResidueUID` constructor used by
`new_residue_node` in `src/result/node/node_.rs` is declared in a module
missing from the sources; following spec section 3 and the call sites
`ResidueUID::new(&structure, chain_id, resnum, inscode)`, it is a record of
structure model, chain, residue number and optional insertion code. -/
structure ResidueUID where
  structure_ : Int
  chain : Char
  resnum : Int
  inscode : Option Char
deriving DecidableEq

/-- Modelled from the spec: the `AtomUID` constructor used by
`new_atom_node` in `src/result/node/node_.rs` is declared in a module
missing from the sources; following spec section 3 and the call sites
`AtomUID::new(&structure, chain, resnum, inscode, name)`, it extends a
residue identity with the atom name. -/
structure AtomUID where
  structure_ : Int
  chain : Char
  resnum : Int
  inscode : Option Char
  name : String
deriving DecidableEq

/-- Modelled from the spec: the `NodeUID` sum type imported by
`src/result/tree.rs` and `src/result/node/node_.rs` from a module missing
from the sources.  Spec section 3 describes it as a sum over chain,
residue and atom identities with structural (value) equality and hashing;
the call sites add a `Structure` variant carrying the structure name. -/
inductive NodeUID where
  | structure_ (name : String)
  | chain (uid : ChainUID)
  | residue (uid : ResidueUID)
  | atom (uid : AtomUID)
deriving DecidableEq

/-- Numeric-character test, modelling Rust `char::is_numeric`; on the
ASCII data this development works over, it agrees with `Char.isDigit`. -/
def rustIsNumeric (c : Char) : Bool :=
  c.isDigit

/-- Digit-run parser used by `parseI32`: succeeds on a non-empty run of
ASCII digits, as Rust `i32::from_str` requires after the optional sign. -/
def parseDigits (cs : List Char) : Option Nat :=
  match cs with
  | [] => none
  | _ =>
    if cs.all Char.isDigit then
      some (cs.foldl (fun a c => a * 10 + (c.toNat - 48)) 0)
    else none

/-- Model of Rust `str::parse::<i32>()`: an optional `+`/`-` sign, a
non-empty run of digits, and an `i32` range check (overflow is an error). -/
def parseI32 (s : String) : Option Int :=
  let signed : Int × List Char :=
    match s.data with
    | c :: rest => if c = ('+') then (1, rest) else if c = ('-') then (-1, rest) else (1, s.data)
    | [] => (1, [])
  match parseDigits signed.2 with
  | none => none
  | some n =>
    let v : Int := signed.1 * n
    if -2147483648 ≤ v ∧ v ≤ 2147483647 then some v else none

/-- Drop the final character of an ASCII string, modelling the Rust byte
slice `&name[..name.len() - 1]`. -/
def dropLastStr (s : String) : String :=
  String.mk s.data.dropLast

/-- Model of Rust `str::trim`: drop whitespace from both ends. -/
def rustTrim (s : String) : String :=
  String.mk (((s.data.dropWhile Char.isWhitespace).reverse.dropWhile Char.isWhitespace).reverse)

/-- Residue-number field parsing shared by `ResidueProperties::new`
(`src/result/node/properties.rs`, lines 98-138) and
`NodeUid::from_residue_ptr` (`src/uids.rs`, lines 166-186): trim the raw
field; panic (`none`) when it is empty; treat the last character as an
insertion code exactly when it is not numeric; parse the remaining text
with `str::parse::<i32>()`, whose failure is an `unwrap` panic (`none`). -/
def parseResidueField (raw : String) : Option (Int × Option Char) :=
  let name := rustTrim raw
  match name.data.getLast? with
  | none => none
  | some last =>
    if rustIsNumeric last then
      (parseI32 name).map (fun n => (n, none))
    else
      (parseI32 (dropLastStr name)).map (fun n => (n, some last))

/-- Chain-level properties, mirroring `ChainProperties` in
`src/result/node/properties.rs` (lines 157-162).  `structure_` is the
model number read from the parent structure node. -/
structure ChainProperties where
  n_residues : Int
  id : Char
  structure_ : Int
deriving DecidableEq

/-- Residue-level properties, mirroring `ResidueProperties` in
`src/result/node/properties.rs` (lines 85-92). -/
structure ResidueProperties where
  n_atoms : Int
  resnum : Int
  inscode : Option Char
  resname : String
  chain : ChainProperties
deriving DecidableEq

/-- Atom-level properties, mirroring `AtomProperties` in
`src/result/node/properties.rs` (lines 22-30). -/
structure AtomProperties where
  is_polar : Bool
  is_bb : Bool
  radius : ℚ
  pdb_line : Option String
  residue : ResidueProperties
  name : String
deriving DecidableEq

/-- Structure-level properties, mirroring `StructureProperties` in
`src/result/node/properties.rs` (lines 201-207). -/
structure StructureProperties where
  chain_uids : List Char
  n_atoms : Int
  model : Int
  name : String
deriving DecidableEq

/-- Result-level properties, mirroring `ResultProperties` in
`src/result/node/properties.rs` (lines 254-257). -/
structure ResultProperties where
  classified_by : String
deriving DecidableEq

/-- Kind-specific node properties, mirroring the `NodeProperties` enum in
`src/result/node/node_.rs` (lines 241-249). -/
inductive NodeProperties where
  | atom (p : AtomProperties)
  | residue (p : ResidueProperties)
  | chain (p : ChainProperties)
  | structure_ (p : StructureProperties)
  | result (p : ResultProperties)
deriving DecidableEq

/-- The per-node values readable through the typed accessors of the
foreign traversal protocol (`freesasa_node_type`, `freesasa_node_name`,
`freesasa_node_residue_number`, `freesasa_node_structure_model`,
`freesasa_node_area`, and the kind-specific accessors).  One record models
one native node, with the accessors that do not apply to its kind holding
irrelevant defaults. -/
structure NativeFields where
  ntype : NodeType := NodeType.None
  name : String := ""
  resnumRaw : String := ""
  model : Int := 1
  area : NodeArea := NodeArea.zero
  nAtoms : Int := 0
  nResidues : Int := 0
  radius : ℚ := 0
  isPolar : Bool := false
  isMainchain : Bool := false
  pdbLine : Option String := none
  classifiedBy : String := ""
  chainLabels : List Char := []
deriving DecidableEq

mutual
/-- A node of the foreign pointer-linked tree: its accessor values plus
its first-child list (`freesasa_node_children`). -/
inductive NativeNode where
  | mk (fields : NativeFields) (children : NativeForest)
deriving DecidableEq
/-- A sibling chain of foreign nodes, linked by `freesasa_node_next`. -/
inductive NativeForest where
  | nil
  | cons (head : NativeNode) (tail : NativeForest)
deriving DecidableEq
end

/-- Accessor-record projection of a native node. -/
def NativeNode.fields : NativeNode → NativeFields
  | NativeNode.mk fl _ => fl

/-- First-child forest of a native node (`freesasa_node_children`). -/
def NativeNode.children : NativeNode → NativeForest
  | NativeNode.mk _ ch => ch

/-- First node of a sibling chain, or `none` when the chain is empty
(a null `freesasa_node_next` result). -/
def NativeForest.head? : NativeForest → Option NativeNode
  | NativeForest.nil => none
  | NativeForest.cons n _ => some n

/-- Embedding of `ChainProperties::new` (`src/result/node/properties.rs`,
lines 164-198).  `anc` is the stack of ancestors of the node, nearest
first, standing in for the `freesasa_node_parent` pointer chain.  Panics
(`none`): the node is not of chain kind (`assert_nodetype`), the chain
name is not exactly one byte (`panic!("Invalid chain name")`), or the
parent pointer is null. -/
def ChainProperties.new (anc : List NativeNode) (n : NativeNode) : Option ChainProperties :=
  if n.fields.ntype = NodeType.Chain then
    match n.fields.name.data with
    | [c] =>
      match anc.head? with
      | some p => some { n_residues := n.fields.nResidues, id := c, structure_ := p.fields.model }
      | none => none
    | _ => none
  else none

/-- Embedding of `ResidueProperties::new` (`src/result/node/properties.rs`,
lines 94-154).  Panics (`none`): wrong node kind, empty or unparseable
residue-number field (`parseResidueField`), or a failing
`ChainProperties::new` on the parent chain node. -/
def ResidueProperties.new (anc : List NativeNode) (n : NativeNode) : Option ResidueProperties :=
  if n.fields.ntype = NodeType.Residue then
    match parseResidueField n.fields.resnumRaw with
    | none => none
    | some ri =>
      match anc with
      | [] => none
      | p :: rest =>
        (ChainProperties.new rest p).map (fun chain =>
          { n_atoms := n.fields.nAtoms, resnum := ri.1, inscode := ri.2,
            resname := n.fields.name, chain := chain })
  else none

/-- Embedding of `AtomProperties::new` (`src/result/node/properties.rs`,
lines 32-82).  Panics (`none`): wrong node kind, or a failing
`ResidueProperties::new` on the parent residue node. -/
def AtomProperties.new (anc : List NativeNode) (n : NativeNode) : Option AtomProperties :=
  if n.fields.ntype = NodeType.Atom then
    match anc with
    | [] => none
    | p :: rest =>
      (ResidueProperties.new rest p).map (fun residue =>
        { is_polar := n.fields.isPolar, is_bb := n.fields.isMainchain,
          radius := n.fields.radius, pdb_line := n.fields.pdbLine,
          residue := residue, name := n.fields.name })
  else none

/-- Embedding of `StructureProperties::new` (`src/result/node/properties.rs`,
lines 209-252).  Panics (`none`): wrong node kind (`assert_nodetype`). -/
def StructureProperties.new (n : NativeNode) : Option StructureProperties :=
  if n.fields.ntype = NodeType.Structure then
    some { chain_uids := n.fields.chainLabels, n_atoms := n.fields.nAtoms,
           model := n.fields.model, name := n.fields.name }
  else none

/-- Embedding of `ResultProperties::new` (`src/result/node/properties.rs`,
lines 259-274), which reads the classifier name and asserts nothing. -/
def ResultProperties.new (n : NativeNode) : ResultProperties :=
  { classified_by := n.fields.classifiedBy }

/-- Owned tree node, mirroring `Node` in `src/result/node/node_.rs`
(lines 251-258). -/
structure Node where
  properties : Option NodeProperties
  area : Option NodeArea
  uid : Option NodeUID
  nodetype : NodeType
  sibling_uid : Option NodeUID
deriving DecidableEq

/-- Embedding of `Node::new_from_node` (`src/result/node/node_.rs`,
lines 277-297) together with the kind-specific constructors
`new_atom_node`, `new_residue_node`, `new_chain_node`,
`new_structure_node` and `new_result_node` (lines 333-500).  `anc` is the
ancestor stack (for the parent-pointer reads inside the property
constructors) and `next` the node's next sibling (for the `sibling_uid`
reads through `freesasa_node_next`).  Panics (`none`) propagate from the
property constructors, including the ones run on the sibling node, and
from the `NodeType.None` arm (`panic!("Invalid node type")`). -/
def Node.new_from_node (anc : List NativeNode) (n : NativeNode) (next : Option NativeNode) :
    Option Node :=
  match n.fields.ntype with
  | NodeType.Atom =>
    (AtomProperties.new anc n).map (fun props =>
      { properties := some (NodeProperties.atom props),
        area := some n.fields.area,
        uid := some (NodeUID.atom
          { structure_ := props.residue.chain.structure_, chain := props.residue.chain.id,
            resnum := props.residue.resnum, inscode := props.residue.inscode,
            name := props.name }),
        nodetype := NodeType.Atom,
        sibling_uid := next.map (fun sib => NodeUID.atom
          { structure_ := props.residue.chain.structure_, chain := props.residue.chain.id,
            resnum := props.residue.resnum, inscode := props.residue.inscode,
            name := sib.fields.name }) })
  | NodeType.Residue =>
    (ResidueProperties.new anc n).bind (fun props =>
      let uid := NodeUID.residue
        { structure_ := props.chain.structure_, chain := props.chain.id,
          resnum := props.resnum, inscode := props.inscode }
      match next with
      | none => some
        { properties := some (NodeProperties.residue props), area := some n.fields.area,
          uid := some uid, nodetype := NodeType.Residue, sibling_uid := none }
      | some sib =>
        (ResidueProperties.new anc sib).map (fun sp =>
          { properties := some (NodeProperties.residue props), area := some n.fields.area,
            uid := some uid, nodetype := NodeType.Residue,
            sibling_uid := some (NodeUID.residue
              { structure_ := props.chain.structure_, chain := sp.chain.id,
                resnum := sp.resnum, inscode := sp.inscode }) }))
  | NodeType.Chain =>
    (ChainProperties.new anc n).bind (fun props =>
      let uid := NodeUID.chain { structure_ := props.structure_, id := props.id }
      match next with
      | none => some
        { properties := some (NodeProperties.chain props), area := some n.fields.area,
          uid := some uid, nodetype := NodeType.Chain, sibling_uid := none }
      | some sib =>
        (ChainProperties.new anc sib).map (fun sp =>
          { properties := some (NodeProperties.chain props), area := some n.fields.area,
            uid := some uid, nodetype := NodeType.Chain,
            sibling_uid := some (NodeUID.chain
              { structure_ := props.structure_, id := sp.id }) }))
  | NodeType.Structure =>
    (StructureProperties.new n).bind (fun props =>
      let uid := NodeUID.structure_ props.name
      match next with
      | none => some
        { properties := some (NodeProperties.structure_ props), area := some n.fields.area,
          uid := some uid, nodetype := NodeType.Structure, sibling_uid := none }
      | some sib =>
        (StructureProperties.new sib).map (fun sp =>
          { properties := some (NodeProperties.structure_ props), area := some n.fields.area,
            uid := some uid, nodetype := NodeType.Structure,
            sibling_uid := some (NodeUID.structure_ sp.name) }))
  | NodeType.Root => some
    { properties := none, area := none, uid := none,
      nodetype := NodeType.Root, sibling_uid := none }
  | NodeType.Result => some
    { properties := some (NodeProperties.result (ResultProperties.new n)), area := none,
      uid := none, nodetype := NodeType.Result, sibling_uid := none }
  | NodeType.None => none

/-- Owned tree, mirroring `SasaTree` in `src/result/tree.rs` (lines 24-27):
a `petgraph::Graph<Node, ()>` modelled as its node-weight list (position =
`NodeIndex`, in insertion order) and its directed edge list. -/
structure SasaTree where
  nodes : List Node
  edges : List (Nat × Nat)
deriving DecidableEq

/-- Embedding of `SasaTree::recursive_add_node` (`src/result/tree.rs`,
lines 214-243): walk the sibling chain; for each node build its `Node`
(panics propagate as `none`), append it to the graph, add an edge from the
parent when there is one, recurse into the children with the fresh index
as parent, then continue with the next sibling. -/
def SasaTree.recursive_add_node (anc : List NativeNode) (parent : Option Nat)
    (g : SasaTree) : NativeForest → Option SasaTree
  | NativeForest.nil => some g
  | NativeForest.cons (NativeNode.mk fl ch) rest =>
    match Node.new_from_node anc (NativeNode.mk fl ch) rest.head? with
    | none => none
    | some node =>
      match SasaTree.recursive_add_node (NativeNode.mk fl ch :: anc) (some g.nodes.length)
          { nodes := g.nodes ++ [node],
            edges := g.edges ++
              (match parent with | some p => [(p, g.nodes.length)] | none => []) } ch with
      | none => none
      | some g2 => SasaTree.recursive_add_node anc parent g2 rest

/-- Embedding of `SasaTree::from_ptr` (`src/result/tree.rs`, lines 34-44):
build the graph from the native root by `recursive_add_node`, then free
the native tree.  `none` models a panic escaping `from_ptr` before the
`freesasa_node_free` call is reached. -/
def SasaTree.from_ptr (root : NativeNode) : Option SasaTree :=
  SasaTree.recursive_add_node [] none { nodes := [], edges := [] }
    (NativeForest.cons root NativeForest.nil)

/-- Number of times `from_ptr` executes `freesasa_node_free` on the native
root: the call site (`src/result/tree.rs`, line 40) runs straight after
`recursive_add_node` returns, with no drop guard holding the raw pointer,
so the free runs exactly once on normal return and zero times when node
conversion panics (the unwinding skips it). -/
def SasaTree.from_ptr_free_count (root : NativeNode) : Nat :=
  match SasaTree.from_ptr root with
  | some _ => 1
  | none => 0

/-- Indexed residue nodes of a graph: the node indices (in
`node_indices()` order) whose weight has residue kind, paired with their
weights.  This models the two `filter` passes of
`SasaTree::compare_residues` (`src/result/tree.rs`, lines 133-139 and
147-153). -/
def SasaTree.residuePairs (t : SasaTree) : List (Nat × Node) :=
  t.nodes.enum.filter (fun p => p.2.nodetype = NodeType.Residue)

/-- Map construction of `compare_residues` (`src/result/tree.rs`, lines
133-145): each residue node of `self` is keyed by its own uid
(`node.uid().unwrap()`; a missing uid is a panic, `none`).  Kept as an
association list in insertion order; `lookupLast` below gives it the
last-entry-wins lookup semantics of collecting duplicate keys into a
`HashMap`. -/
def SasaTree.selfUidEntries : List (Nat × Node) → Option (List (NodeUID × Node))
  | [] => some []
  | p :: rest =>
    match p.2.uid with
    | none => none
    | some u => (SasaTree.selfUidEntries rest).map (fun l => (u, p.2) :: l)

/-- Pair construction of `compare_residues` (`src/result/tree.rs`, lines
147-157).  The iteration runs over the residue node indices of `subtree`,
but — exactly as the source does — the uid attached to each index is read
from `self.graph` at that index
(`self.graph.node_weight(n).unwrap().uid().unwrap()`), so the two
`unwrap`s panic (`none`) when `self` has no node at the index or that node
has no uid. -/
def SasaTree.subtreePairs (self : SasaTree) : List (Nat × Node) → Option (List (NodeUID × Nat))
  | [] => some []
  | p :: rest =>
    match (self.nodes.get? p.1).bind Node.uid with
    | none => none
    | some u => (SasaTree.subtreePairs self rest).map (fun l => (u, p.1) :: l)

/-- Lookup in the association list, last matching entry winning —
the semantics of a `HashMap` collected from an iterator with duplicate
keys. -/
def lookupLast (u : NodeUID) : List (NodeUID × Node) → Option Node
  | [] => none
  | e :: rest =>
    match lookupLast u rest with
    | some v => some v
    | none => if e.1 = u then some e.2 else none

/-- Main loop of `compare_residues` (`src/result/tree.rs`, lines 159-192):
for each collected `(uid, index)` pair, look the uid up in the map built
from `self`; when absent, warn and skip; when present, combine the map
node's area with the subtree node's area (`unwrap` panics, `none`, when
either area is missing), and emit the map node with the combined area when
the predicate holds. -/
def SasaTree.comparePairs (map : List (NodeUID × Node)) (sub : SasaTree)
    (op : NodeArea → NodeArea → NodeArea) (pred : NodeArea → Bool) :
    List (NodeUID × Nat) → Option (List Node)
  | [] => some []
  | q :: rest =>
    match lookupLast q.1 map with
    | none => SasaTree.comparePairs map sub op pred rest
    | some node =>
      match node.area, (sub.nodes.get? q.2).bind Node.area with
      | some a1, some a2 =>
        (SasaTree.comparePairs map sub op pred rest).map (fun tail =>
          let area := op a1 a2
          if pred area then { node with area := some area } :: tail else tail)
      | _, _ => none

/-- Embedding of `SasaTree::compare_residues` (`src/result/tree.rs`, lines
126-195): build the uid → node map from the residue nodes of `self`,
collect `(uid, index)` pairs from the residue node indices of `subtree`
(with the uid read from `self` at each index, as the source does), then
run the main loop.  `none` models a panic escaping the call. -/
def SasaTree.compare_residues (self subtree : SasaTree)
    (op : NodeArea → NodeArea → NodeArea) (pred : NodeArea → Bool) : Option (List Node) :=
  match SasaTree.selfUidEntries self.residuePairs with
  | none => none
  | some map =>
    match SasaTree.subtreePairs self subtree.residuePairs with
    | none => none
    | some pairs => SasaTree.comparePairs map subtree op pred pairs

/-- State of a `SasaTreeNative` wrapper (`src/result/tree.rs`, lines
246-249): either a non-null root handle, or null.  Handles are named by
numbers so that release actions can be recorded. -/
structure SasaTreeNativeSt where
  root : Option Nat
deriving DecidableEq

/-- Handles freed by `impl Drop for SasaTreeNative`
(`src/result/tree.rs`, lines 643-655): the root is freed exactly when it
is non-null; a null root means the tree was moved and nothing is freed. -/
def SasaTreeNativeSt.dropFrees (t : SasaTreeNativeSt) : List Nat :=
  match t.root with
  | some h => [h]
  | none => []

/-- Outcome of `SasaTreeNative::join`: the returned `Result`, the state of
the moved-in donor when `join` ends (at which point the donor is dropped),
and the handles that donor drop frees. -/
structure JoinOutcome where
  result : Except String Unit
  donorAfter : SasaTreeNativeSt
  freedByDonorDrop : List Nat

/-- Embedding of `SasaTreeNative::join` (`src/result/tree.rs`, lines
498-521).  `code` is the status returned by the external
`freesasa_tree_join` (0 success, 1 warning, negative failure).  The source
takes the donor by value, sets `other_tree.root` to null *before*
inspecting the status code, then returns `Ok` on success or warning and
`Err` otherwise; the donor is dropped at the end of `join` in all cases,
with its root already null. -/
def SasaTreeNativeSt.join (code : Int) (_donor : SasaTreeNativeSt) : JoinOutcome :=
  let donorAfter : SasaTreeNativeSt := { root := none }
  let result : Except String Unit :=
    if code = 0 then Except.ok ()
    else if code = 1 then Except.ok ()
    else Except.error ("An error occured whilst join result trees!")
  { result := result, donorAfter := donorAfter,
    freedByDonorDrop := donorAfter.dropFrees }

/-- Depth-first node-kind listing of a native sibling chain: the kind of
each node followed by its children's kinds, then its later siblings' —
the order in which `recursive_add_node` visits nodes. -/
def natTypes : NativeForest → List NodeType
  | NativeForest.nil => []
  | NativeForest.cons (NativeNode.mk fl ch) rest =>
    fl.ntype :: (natTypes ch ++ natTypes rest)

/-- A native residue leaf with a given residue-number field and total
area, convenient for building concrete inputs. -/
def resN (num : String) (t : ℚ) : NativeNode :=
  NativeNode.mk
    { ntype := NodeType.Residue, resnumRaw := num, name := "GLY", area := NodeArea.ofTotal t }
    NativeForest.nil

/-- A native chain node with a given label over the given residues. -/
def chainN (c : String) (f : NativeForest) : NativeNode :=
  NativeNode.mk { ntype := NodeType.Chain, name := c } f

/-- A native structure node with a given name and model number. -/
def structN (nm : String) (m : Int) (f : NativeForest) : NativeNode :=
  NativeNode.mk { ntype := NodeType.Structure, name := nm, model := m } f

/-- Shorthand for a residue identity. -/
def ruid (m : Int) (c : Char) (n : Int) : NodeUID :=
  NodeUID.residue { structure_ := m, chain := c, resnum := n, inscode := none }

/-- Tree A of the matching scenario: chain X with residues 1, 2, 3, 4 of
total areas 10, 20, 30, 40. -/
def natA4 : NativeNode :=
  structN ("wt") 1 (NativeForest.cons (chainN ("X")
    (NativeForest.cons (resN ("1") 10) (NativeForest.cons (resN ("2") 20)
      (NativeForest.cons (resN ("3") 30) (NativeForest.cons (resN ("4") 40) NativeForest.nil)))))
    NativeForest.nil)

/-- Tree B of the matching scenario: chain X with residues 1, 3, 4
(residue 2 deleted) of total areas 11, 33, 44. -/
def natB3 : NativeNode :=
  structN ("del") 1 (NativeForest.cons (chainN ("X")
    (NativeForest.cons (resN ("1") 11) (NativeForest.cons (resN ("3") 33)
      (NativeForest.cons (resN ("4") 44) NativeForest.nil))))
    NativeForest.nil)

/-- The owned tree built from `natA4`. -/
def treeA4 : SasaTree := (SasaTree.from_ptr natA4).getD { nodes := [], edges := [] }

/-- The owned tree built from `natB3`. -/
def treeB3 : SasaTree := (SasaTree.from_ptr natB3).getD { nodes := [], edges := [] }

/-- Rendering of an optional insertion code: the single character when
present, nothing otherwise. -/
def icText : Option Char → String
  | none => ""
  | some i => String.singleton i

/-- The part of the `NodeUid` rendering after the `structure:` prefix; it
does not depend on the structure model number. -/
def NodeUid.displayTail (chain : Option Char) (res_id : Option (Int × Option Char))
    (atom_name : Option String) : String :=
  match chain with
  | none => ""
  | some c =>
    match res_id with
    | none => String.singleton c
    | some ri =>
      match atom_name with
      | none => String.singleton c ++ (":") ++ toString ri.1 ++ icText ri.2
      | some an => String.singleton c ++ (":") ++ toString ri.1 ++ icText ri.2 ++ (":") ++ an

/-- Structure of model number 2 with chain A, residue 1 (total area 10). -/
def natM2 : NativeNode :=
  structN ("m2") 2 (NativeForest.cons (chainN ("A")
    (NativeForest.cons (resN ("1") 10) NativeForest.nil)) NativeForest.nil)

/-- Structure of model number 1 with chain A, residue 1 (total area 99). -/
def natM1 : NativeNode :=
  structN ("m1") 1 (NativeForest.cons (chainN ("A")
    (NativeForest.cons (resN ("1") 99) NativeForest.nil)) NativeForest.nil)

/-- The owned tree built from `natM2`. -/
def treeM2 : SasaTree := (SasaTree.from_ptr natM2).getD { nodes := [], edges := [] }

/-- The owned tree built from `natM1`. -/
def treeM1 : SasaTree := (SasaTree.from_ptr natM1).getD { nodes := [], edges := [] }

/-- A structure whose chain A carries two residues with the same residue
number 5 (duplicate identity), with total areas 10 and 0. -/
def natDup : NativeNode :=
  structN ("dup") 1 (NativeForest.cons (chainN ("A")
    (NativeForest.cons (resN ("5") 10) (NativeForest.cons (resN ("5") 0) NativeForest.nil)))
    NativeForest.nil)

/-- The owned tree built from `natDup`. -/
def treeDup : SasaTree := (SasaTree.from_ptr natDup).getD { nodes := [], edges := [] }

/-- A native tree that is a bare structure node with no chains. -/
def natS1 : NativeNode := structN ("solo") 1 NativeForest.nil

/-- A native tree with one chain holding one residue. -/
def natS3 : NativeNode :=
  structN ("rich") 1 (NativeForest.cons (chainN ("A")
    (NativeForest.cons (resN ("1") 5) NativeForest.nil)) NativeForest.nil)

/-- The owned tree built from `natS1` (nodes: just the structure). -/
def treeS1 : SasaTree := (SasaTree.from_ptr natS1).getD { nodes := [], edges := [] }

/-- The owned tree built from `natS3` (nodes: structure, chain, residue). -/
def treeS3 : SasaTree := (SasaTree.from_ptr natS3).getD { nodes := [], edges := [] }

/-- A native tree whose single residue has the malformed residue-number
field `12AB`: the trailing `B` is taken as insertion code and `12A` then
fails to parse as an integer. -/
def natBadRes : NativeNode :=
  structN ("bad") 1 (NativeForest.cons (chainN ("A")
    (NativeForest.cons (resN ("12AB") 1) NativeForest.nil)) NativeForest.nil)

/-- A native tree whose chain node carries the two-character label `XY`,
which `ChainProperties::new` rejects. -/
def natBadChain : NativeNode :=
  structN ("badc") 1 (NativeForest.cons (chainN ("XY")
    (NativeForest.cons (resN ("1") 1) NativeForest.nil)) NativeForest.nil)

/-- A native tree in the shape produced by `freesasa_calc_tree`: a Root
node wrapping a Result node wrapping one Structure with a chain and a
residue. -/
def natC6 : NativeNode :=
  NativeNode.mk { ntype := NodeType.Root }
    (NativeForest.cons
      (NativeNode.mk { ntype := NodeType.Result, classifiedBy := "ProtOr" }
        (NativeForest.cons
          (structN ("top") 1 (NativeForest.cons (chainN ("A")
            (NativeForest.cons (resN ("7") 3) NativeForest.nil)) NativeForest.nil))
          NativeForest.nil))
      NativeForest.nil)

/-- Residue-level well-formedness of an owned tree: every residue node
carries an identity and an area, as the trees produced by `from_ptr`
always do. -/
def SasaTree.ResWF (t : SasaTree) : Prop :=
  ∀ n ∈ t.nodes, n.nodetype = NodeType.Residue → n.uid.isSome ∧ n.area.isSome

/-- The identities of the residue nodes of an owned tree, in node-index
order. -/
def SasaTree.residueUids (t : SasaTree) : List NodeUID :=
  t.residuePairs.filterMap (fun p => p.2.uid)


/-- The chain-properties record of chain A under model 1, as built for the
residues of `natDup`. -/
def dupChainProps : ChainProperties := { n_residues := 0, id := 'A', structure_ := 1 }

/-- The residue-properties record shared by the two duplicate residues of
`natDup`. -/
def dupResProps : ResidueProperties :=
  { n_atoms := 0, resnum := 5, inscode := none, resname := "GLY", chain := dupChainProps }

/-- The first duplicate residue node of `treeDup` (total area 10). -/
def dupResHigh : Node :=
  { properties := some (NodeProperties.residue dupResProps),
    area := some (NodeArea.ofTotal 10),
    uid := some (ruid 1 ('A') 5), nodetype := NodeType.Residue,
    sibling_uid := some (ruid 1 ('A') 5) }

/-- The second duplicate residue node of `treeDup` (total area 0). -/
def dupResLow : Node :=
  { properties := some (NodeProperties.residue dupResProps),
    area := some (NodeArea.ofTotal 0),
    uid := some (ruid 1 ('A') 5), nodetype := NodeType.Residue,
    sibling_uid := none }

/-- The spurious difference node that comparing `treeDup` against itself
emits: the duplicate-identity residue with the area delta between the two
duplicates. -/
def dupDiffNode : Node :=
  { dupResLow with area := some (NodeArea.sub (NodeArea.ofTotal 10) (NodeArea.ofTotal 0)) }

/-- The owned tree built from `natC6`. -/
def treeC6 : SasaTree := (SasaTree.from_ptr natC6).getD { nodes := [], edges := [] }

theorem string_push_eq (s : String) (c : Char) : s.push c = s ++ String.singleton c := by
  cases s
  rfl

theorem singleton_colon : String.singleton (':') = ":" := rfl

theorem new_from_node_nodetype (anc : List NativeNode) (n : NativeNode) (next : Option NativeNode)
    (node : Node) (h : Node.new_from_node anc n next = some node) :
    node.nodetype = n.fields.ntype := by
  unfold Node.new_from_node at h
  cases hnt : n.fields.ntype <;> rw [hnt] at h <;>
    simp only [Option.map_eq_some', Option.bind_eq_some] at h
  case None => exact absurd h (by simp)
  case Atom =>
    obtain ⟨p, _, rfl⟩ := h
    rfl
  case Residue =>
    obtain ⟨p, _, h2⟩ := h
    cases next with
    | none => simp only [Option.some.injEq] at h2; rw [← h2]
    | some sib =>
      simp only [Option.map_eq_some'] at h2
      obtain ⟨sp, _, rfl⟩ := h2
      rfl
  case Chain =>
    obtain ⟨p, _, h2⟩ := h
    cases next with
    | none => simp only [Option.some.injEq] at h2; rw [← h2]
    | some sib =>
      simp only [Option.map_eq_some'] at h2
      obtain ⟨sp, _, rfl⟩ := h2
      rfl
  case Structure =>
    obtain ⟨p, _, h2⟩ := h
    cases next with
    | none => simp only [Option.some.injEq] at h2; rw [← h2]
    | some sib =>
      simp only [Option.map_eq_some'] at h2
      obtain ⟨sp, _, rfl⟩ := h2
      rfl
  case Result =>
    cases h
    rfl
  case Root =>
    cases h
    rfl

theorem rec_add_node_types (anc : List NativeNode) (parent : Option Nat) (g : SasaTree)
    (f : NativeForest) (g' : SasaTree)
    (h : SasaTree.recursive_add_node anc parent g f = some g') :
    g'.nodes.map Node.nodetype = g.nodes.map Node.nodetype ++ natTypes f := by
  induction anc, parent, g, f using SasaTree.recursive_add_node.induct generalizing g' with
  | case1 anc parent g =>
    simp only [SasaTree.recursive_add_node, Option.some.injEq] at h
    subst h
    simp [natTypes]
  | case2 anc parent g fl ch rest hnone =>
    simp only [SasaTree.recursive_add_node, hnone] at h
    exact absurd h (by simp)
  | case3 anc parent g fl ch rest node hnode hchild ih1 =>
    simp only [SasaTree.recursive_add_node, hnode, hchild] at h
    exact absurd h (by simp)
  | case4 anc parent g fl ch rest node hnode g2 hchild ih2 ih1 =>
    simp only [SasaTree.recursive_add_node, hnode, hchild] at h
    have e1 := ih1 g' h
    have e2 := ih2 g2 hchild
    have e3 : node.nodetype = fl.ntype :=
      new_from_node_nodetype anc (NativeNode.mk fl ch) rest.head? node hnode
    simp only [e1, e2, natTypes, List.map_append, List.map_cons, List.map_nil, e3]
    simp

theorem mem_enumFrom_get? {α : Type} : ∀ (l : List α) (k i : Nat) (a : α),
    (i, a) ∈ l.enumFrom k → k ≤ i ∧ l.get? (i - k) = some a := by
  intro l
  induction l with
  | nil => intro k i a h; exact absurd h (by simp)
  | cons x xs ih =>
    intro k i a h
    simp only [List.enumFrom, List.mem_cons] at h
    rcases h with h | h
    · rw [Prod.mk.injEq] at h
      obtain ⟨rfl, rfl⟩ := h
      simp
    · obtain ⟨hk, hg⟩ := ih (k + 1) i a h
      refine ⟨by omega, ?_⟩
      have : i - k = (i - (k + 1)) + 1 := by omega
      rw [this]
      simpa using hg

theorem residuePairs_spec (t : SasaTree) (p : Nat × Node) (hp : p ∈ t.residuePairs) :
    t.nodes.get? p.1 = some p.2 ∧ p.2.nodetype = NodeType.Residue := by
  unfold SasaTree.residuePairs at hp
  rw [List.mem_filter] at hp
  obtain ⟨hmem, hres⟩ := hp
  refine ⟨?_, by simpa using hres⟩
  obtain ⟨i, a⟩ := p
  have := mem_enumFrom_get? t.nodes 0 i a (by simpa [List.enum] using hmem)
  simpa using this.2

theorem selfUidEntries_some (l : List (Nat × Node))
    (h : ∀ p ∈ l, (p.2.uid).isSome) :
    ∃ M, SasaTree.selfUidEntries l = some M ∧
      List.Forall₂ (fun (p : Nat × Node) (e : NodeUID × Node) => p.2.uid = some e.1 ∧ e.2 = p.2) l M := by
  induction l with
  | nil => exact ⟨[], rfl, List.Forall₂.nil⟩
  | cons p rest ih =>
    obtain ⟨M, hM, hF⟩ := ih (fun q hq => h q (List.mem_cons_of_mem p hq))
    have hu := h p (List.mem_cons_self p rest)
    obtain ⟨u, hu'⟩ := Option.isSome_iff_exists.mp hu
    refine ⟨(u, p.2) :: M, ?_, List.Forall₂.cons ⟨hu', rfl⟩ hF⟩
    simp only [SasaTree.selfUidEntries, hu', hM, Option.map_some']

theorem subtreePairs_some (self : SasaTree) (l : List (Nat × Node))
    (h : ∀ p ∈ l, (((self.nodes.get? p.1).bind Node.uid)).isSome) :
    ∃ P, SasaTree.subtreePairs self l = some P ∧
      List.Forall₂ (fun (p : Nat × Node) (q : NodeUID × Nat) =>
        (self.nodes.get? p.1).bind Node.uid = some q.1 ∧ q.2 = p.1) l P := by
  induction l with
  | nil => exact ⟨[], rfl, List.Forall₂.nil⟩
  | cons p rest ih =>
    obtain ⟨P, hP, hF⟩ := ih (fun q hq => h q (List.mem_cons_of_mem p hq))
    have hu := h p (List.mem_cons_self p rest)
    obtain ⟨u, hu'⟩ := Option.isSome_iff_exists.mp hu
    refine ⟨(u, p.1) :: P, ?_, List.Forall₂.cons ⟨hu', rfl⟩ hF⟩
    simp only [SasaTree.subtreePairs, hu', hP, Option.map_some']

theorem forall2_mem_right {α β : Type} {R : α → β → Prop} :
    ∀ {l : List α} {m : List β}, List.Forall₂ R l m → ∀ b ∈ m, ∃ a ∈ l, R a b := by
  intro l m h
  induction h with
  | nil => intro b hb; exact absurd hb (by simp)
  | cons hr _ ih =>
    intro b hb
    rcases List.mem_cons.mp hb with rfl | hb
    · exact ⟨_, List.mem_cons_self .., hr⟩
    · obtain ⟨a, ha, har⟩ := ih b hb
      exact ⟨a, List.mem_cons_of_mem _ ha, har⟩

theorem forall2_mem_left {α β : Type} {R : α → β → Prop} :
    ∀ {l : List α} {m : List β}, List.Forall₂ R l m → ∀ a ∈ l, ∃ b ∈ m, R a b := by
  intro l m h
  induction h with
  | nil => intro a ha; exact absurd ha (by simp)
  | cons hr _ ih =>
    intro a ha
    rcases List.mem_cons.mp ha with rfl | ha
    · exact ⟨_, List.mem_cons_self .., hr⟩
    · obtain ⟨b, hb, hbr⟩ := ih a ha
      exact ⟨b, List.mem_cons_of_mem _ hb, hbr⟩

theorem entries_keys {l : List (Nat × Node)} {M : List (NodeUID × Node)}
    (h : List.Forall₂ (fun (p : Nat × Node) (e : NodeUID × Node) => p.2.uid = some e.1 ∧ e.2 = p.2) l M) :
    M.map Prod.fst = l.filterMap (fun p => p.2.uid) := by
  induction h with
  | nil => rfl
  | cons hr _ ih =>
    obtain ⟨h1, _⟩ := hr
    simp [List.filterMap_cons, h1, ih]

theorem lookupLast_eq_none {M : List (NodeUID × Node)} {u : NodeUID}
    (h : u ∉ M.map Prod.fst) : lookupLast u M = none := by
  induction M with
  | nil => rfl
  | cons e rest ih =>
    simp only [List.map_cons, List.mem_cons] at h
    push_neg at h
    obtain ⟨h1, h2⟩ := h
    simp only [lookupLast, ih h2]
    rw [if_neg (fun he => h1 he.symm)]

theorem lookupLast_of_mem_nodup {M : List (NodeUID × Node)} {u : NodeUID} {v : Node}
    (hnd : (M.map Prod.fst).Nodup) (hm : (u, v) ∈ M) : lookupLast u M = some v := by
  induction M with
  | nil => exact absurd hm (by simp)
  | cons e rest ih =>
    simp only [List.map_cons, List.nodup_cons] at hnd
    obtain ⟨hne, hnd'⟩ := hnd
    rcases List.mem_cons.mp hm with rfl | hm
    · have : lookupLast u rest = none :=
        lookupLast_eq_none (by simpa using hne)
      simp [lookupLast, this]
    · have := ih hnd' hm
      simp [lookupLast, this]

theorem comparePairs_all_skip (map : List (NodeUID × Node)) (sub : SasaTree)
    (op : NodeArea → NodeArea → NodeArea) (pred : NodeArea → Bool) :
    ∀ (P : List (NodeUID × Nat)),
      (∀ q ∈ P, ∃ node a, lookupLast q.1 map = some node ∧ node.area = some a ∧
        (sub.nodes.get? q.2).bind Node.area = some a ∧ pred (op a a) = false) →
      SasaTree.comparePairs map sub op pred P = some [] := by
  intro P
  induction P with
  | nil => intro _; rfl
  | cons q rest ih =>
    intro h
    obtain ⟨node, a, hlk, hna, hsa, hpf⟩ := h q (List.mem_cons_self q rest)
    have htail := ih (fun r hr => h r (List.mem_cons_of_mem q hr))
    simp only [SasaTree.comparePairs, hlk, hna, hsa, htail, Option.map_some', hpf]
    simp

/-- C7 (amended): comparing an owned tree against itself with the
difference operator `b - a` and the predicate `|total| > ε` returns the
empty vector for every ε > 0, provided the tree's residue nodes carry
identity and area (as built trees do) and their identities are pairwise
distinct.  With duplicate identities the claim fails (see the
counterexample): the uid map keeps only the last duplicate, so a residue
is compared against its duplicate's area. -/
theorem c7_diff_self_empty (t : SasaTree) (ε : ℚ) (hε : 0 < ε)
    (hwf : t.ResWF) (hnd : t.residueUids.Nodup) :
    t.compare_residues t (fun a b => NodeArea.sub b a)
      (fun d => decide (ε < |d.total|)) = some [] := by
  have hps : ∀ p ∈ t.residuePairs, t.nodes.get? p.1 = some p.2 ∧ p.2.nodetype = NodeType.Residue :=
    fun p hp => residuePairs_spec t p hp
  have hmem : ∀ p ∈ t.residuePairs, p.2 ∈ t.nodes := by
    intro p hp
    exact List.get?_mem (hps p hp).1
  have hwfp : ∀ p ∈ t.residuePairs, (p.2.uid).isSome ∧ (p.2.area).isSome := by
    intro p hp
    exact hwf p.2 (hmem p hp) (hps p hp).2
  obtain ⟨M, hM, hFM⟩ := selfUidEntries_some t.residuePairs (fun p hp => (hwfp p hp).1)
  obtain ⟨P, hP, hFP⟩ := subtreePairs_some t t.residuePairs (by
    intro p hp
    rw [(hps p hp).1]
    simpa using (hwfp p hp).1)
  have hkeys : M.map Prod.fst = t.residueUids := (entries_keys hFM).trans rfl
  have hndM : (M.map Prod.fst).Nodup := by rw [hkeys]; exact hnd
  unfold SasaTree.compare_residues
  rw [hM, hP]
  apply comparePairs_all_skip
  intro q hq
  obtain ⟨p, hpl, hR⟩ := forall2_mem_right hFP q hq
  obtain ⟨hbind, hq2⟩ := hR
  rw [(hps p hpl).1] at hbind
  simp only [Option.some_bind] at hbind
  obtain ⟨e, heM, heR⟩ := forall2_mem_left hFM p hpl
  obtain ⟨heu, hev⟩ := heR
  have he1 : e.1 = q.1 := by
    rw [heu] at hbind
    exact (Option.some.injEq .. ▸ hbind)
  obtain ⟨a, ha⟩ := Option.isSome_iff_exists.mp (hwfp p hpl).2
  refine ⟨p.2, a, ?_, ha, ?_, ?_⟩
  · have : (q.1, p.2) ∈ M := by
      have : e = (q.1, p.2) := by
        obtain ⟨e1, e2⟩ := e
        simp only at he1 hev
        rw [he1, hev]
      rwa [this] at heM
    exact lookupLast_of_mem_nodup hndM this
  · rw [hq2, (hps p hpl).1]
    simpa using ha
  · simp only [NodeArea.sub, sub_self, abs_zero, decide_eq_false_iff_not]
    exact not_lt.mpr hε.le

/-- C7 counterexample: the claim quantifies over every owned tree and
every ε > 0.  For the owned tree built from `natDup` — two residues with
the same identity (chain A, residue 5) and areas 10 and 0 — comparing the
tree against itself with `b - a` and `|total| > 1` emits one node: the
map keeps only the last duplicate, so the first duplicate is compared
against the second's area, giving the non-zero delta 10 - 0. -/
theorem c7_counterexample :
    (0 : ℚ) < 1 ∧ SasaTree.from_ptr natDup = some treeDup ∧ treeDup.ResWF ∧
    treeDup.compare_residues treeDup (fun a b => NodeArea.sub b a)
        (fun d => decide ((1 : ℚ) < |d.total|)) = some [dupDiffNode] ∧
    (some [dupDiffNode] : Option (List Node)) ≠ some [] := by
  refine ⟨by norm_num, rfl, by unfold SasaTree.ResWF; decide, ?_, by simp⟩
  have hM : SasaTree.selfUidEntries treeDup.residuePairs
      = some [(ruid 1 ('A') 5, dupResHigh), (ruid 1 ('A') 5, dupResLow)] := rfl
  have hP : SasaTree.subtreePairs treeDup treeDup.residuePairs
      = some [(ruid 1 ('A') 5, 2), (ruid 1 ('A') 5, 3)] := rfl
  have hlk : lookupLast (ruid 1 ('A') 5)
      [(ruid 1 ('A') 5, dupResHigh), (ruid 1 ('A') 5, dupResLow)] = some dupResLow := rfl
  have hA : dupResLow.area = some (NodeArea.ofTotal 0) := rfl
  have hG2 : (treeDup.nodes.get? 2).bind Node.area = some (NodeArea.ofTotal 10) := rfl
  have hG3 : (treeDup.nodes.get? 3).bind Node.area = some (NodeArea.ofTotal 0) := rfl
  have hpredA : (decide ((1 : ℚ) <
      |(NodeArea.sub (NodeArea.ofTotal 10) (NodeArea.ofTotal 0)).total|)) = true := by
    norm_num [NodeArea.sub, NodeArea.ofTotal]
  have hpredB : (decide ((1 : ℚ) <
      |(NodeArea.sub (NodeArea.ofTotal 0) (NodeArea.ofTotal 0)).total|)) = false := by
    norm_num [NodeArea.sub, NodeArea.ofTotal]
  unfold SasaTree.compare_residues
  rw [hM, hP]
  simp only [SasaTree.comparePairs, hlk, hA, hG2, hG3, hpredA, hpredB,
    Option.map_some', dupDiffNode]
  simp

/-- C7 witness: the amended claim at the concrete tree built from
`natM1` (one chain, one residue) and ε = 1. -/
theorem c7_witness :
    (0 : ℚ) < 1 ∧ treeM1.ResWF ∧ treeM1.residueUids.Nodup ∧
    treeM1.compare_residues treeM1 (fun a b => NodeArea.sub b a)
      (fun d => decide ((1 : ℚ) < |d.total|)) = some [] :=
  ⟨zero_lt_one, by unfold SasaTree.ResWF; decide, by decide,
   c7_diff_self_empty treeM1 1 zero_lt_one (by unfold SasaTree.ResWF; decide) (by decide)⟩

/-- C1: the claim says `compare_residues` pairs residues purely by
identity.  In the code, the uid attached to each subtree residue index is
read from `self.graph` at that same index (`src/result/tree.rs`, line
155), so pairing is positional: comparing tree A (residues 1,2,3,4 of
areas 10,20,30,40 on chain X) with tree B (residues 1,3,4 of areas
11,33,44) emits A's residues 1, 2 and 3 — residue 2, which was deleted
from B, is paired with B's residue 3 (delta 33-20), residue 3 with B's
residue 4 (delta 44-30), and residue 4 of A is never paired. -/
theorem c1_positional_pairing :
    SasaTree.from_ptr natA4 = some treeA4 ∧ SasaTree.from_ptr natB3 = some treeB3 ∧
    (treeA4.compare_residues treeB3 (fun a b => NodeArea.sub b a) (fun _ => true)).map
        (fun l => l.map (fun nd => (nd.uid, nd.area)))
      = some
        [(some (ruid 1 ('X') 1), some (NodeArea.sub (NodeArea.ofTotal 11) (NodeArea.ofTotal 10))),
         (some (ruid 1 ('X') 2), some (NodeArea.sub (NodeArea.ofTotal 33) (NodeArea.ofTotal 20))),
         (some (ruid 1 ('X') 3), some (NodeArea.sub (NodeArea.ofTotal 44) (NodeArea.ofTotal 30)))] :=
  ⟨rfl, rfl, rfl⟩

/-- C2: the claim says the native tree is released exactly once on every
exit path of `from_ptr`, including a panic during node conversion.  The
call `freesasa_node_free(node)` (`src/result/tree.rs`, line 40) runs only
after `recursive_add_node` returns normally and no guard holds the raw
pointer, so when conversion panics — here on the unparseable
residue-number field `12AB` — the free is never executed and the native
tree leaks; on the success path it runs exactly once. -/
theorem c2_leak_on_panic :
    SasaTree.from_ptr natBadRes = none ∧ SasaTree.from_ptr_free_count natBadRes = 0 ∧
    SasaTree.from_ptr natS3 = some treeS3 ∧ SasaTree.from_ptr_free_count natS3 = 1 :=
  ⟨rfl, rfl, rfl, rfl⟩

/-- C3 counterexample: the claim says a failing native join leaves the
donor intact and still owned by the caller.  In the code the donor is
moved into `join` by value and its root is nulled before the status check
(`src/result/tree.rs`, line 511), so on a failure code the call returns an
error while the donor's drop frees nothing — handle 7 is never released
and the caller holds no handle to release. -/
theorem c3_counterexample :
    (SasaTreeNativeSt.join (-1) { root := some 7 }).result
        = Except.error ("An error occured whilst join result trees!") ∧
    (SasaTreeNativeSt.join (-1) { root := some 7 }).donorAfter.root = none ∧
    (SasaTreeNativeSt.join (-1) { root := some 7 }).freedByDonorDrop = [] :=
  ⟨rfl, rfl, rfl⟩

/-- C3 (amended): when the native join returns any code other than
success (0) or warning (1), `join` returns an error, the donor's handle
has already been nulled, and the donor's drop releases nothing — the
donor native tree is leaked, not left with the caller. -/
theorem c3_join_failure_behavior (code : Int) (donor : SasaTreeNativeSt)
    (h0 : code ≠ 0) (h1 : code ≠ 1) :
    (SasaTreeNativeSt.join code donor).result
        = Except.error ("An error occured whilst join result trees!") ∧
    (SasaTreeNativeSt.join code donor).donorAfter.root = none ∧
    (SasaTreeNativeSt.join code donor).freedByDonorDrop = [] := by
  unfold SasaTreeNativeSt.join SasaTreeNativeSt.dropFrees
  simp [h0, h1]

/-- C3 witness: the amended claim at the concrete failing code -1 and a
donor holding handle 7. -/
theorem c3_join_failure_witness :
    (-1 : Int) ≠ 0 ∧ (-1 : Int) ≠ 1 ∧
    ((SasaTreeNativeSt.join (-1) { root := some 7 }).result
        = Except.error ("An error occured whilst join result trees!") ∧
     (SasaTreeNativeSt.join (-1) { root := some 7 }).donorAfter.root = none ∧
     (SasaTreeNativeSt.join (-1) { root := some 7 }).freedByDonorDrop = []) :=
  ⟨by decide, by decide,
   c3_join_failure_behavior (-1) { root := some 7 } (by decide) (by decide)⟩

/-- C4 counterexample: the claim says building never panics on malformed
input data but returns a typed error.  Building from a native tree whose
chain label is the two-character `XY`, or whose residue-number field is
the unparseable `12AB`, panics (`panic!("Invalid chain name")`,
`.parse().unwrap()`); `from_ptr` returns `Self`, not a `Result`, so no
typed error exists on this path — `none` here models the panic. -/
theorem c4_counterexample :
    SasaTree.from_ptr natBadChain = none ∧ SasaTree.from_ptr natBadRes = none :=
  ⟨rfl, rfl⟩

/-- C4 (amended): on malformed input data the property constructors panic
rather than produce a value: a chain node whose label is not exactly one
character makes `ChainProperties::new` panic, and a residue node whose
residue-number field does not parse makes `ResidueProperties::new` panic;
tree building propagates these panics and returns no typed error. -/
theorem c4_malformed_panics (anc ancr : List NativeNode) (n m : NativeNode)
    (hc : n.fields.ntype = NodeType.Chain) (hlen : n.fields.name.data.length ≠ 1)
    (hr : m.fields.ntype = NodeType.Residue)
    (hparse : parseResidueField m.fields.resnumRaw = none) :
    ChainProperties.new anc n = none ∧ ResidueProperties.new ancr m = none := by
  constructor
  · unfold ChainProperties.new
    rw [if_pos hc]
    cases hd : n.fields.name.data with
    | nil => rfl
    | cons c rest =>
      cases rest with
      | nil => exact absurd (by rw [hd]; rfl) hlen
      | cons d rest2 => rfl
  · unfold ResidueProperties.new
    rw [if_pos hr, hparse]

/-- C4 witness: the amended claim at a chain node labelled `XY` and a
residue node with residue-number field `ABC`. -/
theorem c4_malformed_witness :
    (NativeNode.mk { ntype := NodeType.Chain, name := "XY" } NativeForest.nil).fields.ntype
        = NodeType.Chain ∧
    (NativeNode.mk { ntype := NodeType.Chain, name := "XY" }
        NativeForest.nil).fields.name.data.length ≠ 1 ∧
    (NativeNode.mk { ntype := NodeType.Residue, resnumRaw := "ABC" }
        NativeForest.nil).fields.ntype = NodeType.Residue ∧
    parseResidueField (NativeNode.mk { ntype := NodeType.Residue, resnumRaw := "ABC" }
        NativeForest.nil).fields.resnumRaw = none ∧
    (ChainProperties.new []
          (NativeNode.mk { ntype := NodeType.Chain, name := "XY" } NativeForest.nil) = none ∧
      ResidueProperties.new []
          (NativeNode.mk { ntype := NodeType.Residue, resnumRaw := "ABC" }
            NativeForest.nil) = none) :=
  ⟨by decide, by decide, by decide, by decide,
   c4_malformed_panics [] []
     (NativeNode.mk { ntype := NodeType.Chain, name := "XY" } NativeForest.nil)
     (NativeNode.mk { ntype := NodeType.Residue, resnumRaw := "ABC" } NativeForest.nil)
     (by decide) (by decide) (by decide) (by decide)⟩

/-- C6 counterexample: the claim says building skips wrapper nodes above
`Structure` and roots the owned tree at the first Structure node, with
Root and Result nodes never appearing.  Building `natC6` (a Root wrapping
a Result wrapping a Structure) produces a graph whose node-kind sequence
is Root, Result, Structure, Chain, Residue: both wrapper kinds appear and
the first node is the Root, not the Structure. -/
theorem c6_counterexample :
    SasaTree.from_ptr natC6 = some treeC6 ∧
    treeC6.nodes.map Node.nodetype
      = [NodeType.Root, NodeType.Result, NodeType.Structure, NodeType.Chain, NodeType.Residue] ∧
    treeC6.nodes.any (fun n => n.nodetype = NodeType.Root) = true ∧
    treeC6.nodes.any (fun n => n.nodetype = NodeType.Result) = true ∧
    treeC6.nodes.head?.map Node.nodetype = some NodeType.Root :=
  ⟨rfl, by decide, by decide, by decide, by decide⟩

/-- C6 (amended): tree building skips nothing: whenever `from_ptr`
returns a tree, the node-kind sequence of the owned graph equals the
depth-first kind sequence of the native tree — wrapper kinds Root and
Result included, and the first owned node is the native root, whatever
its kind. -/
theorem c6_no_wrapper_skipping (root : NativeNode) (g : SasaTree)
    (h : SasaTree.from_ptr root = some g) :
    g.nodes.map Node.nodetype = natTypes (NativeForest.cons root NativeForest.nil) := by
  unfold SasaTree.from_ptr at h
  have := rec_add_node_types [] none { nodes := [], edges := [] }
    (NativeForest.cons root NativeForest.nil) g h
  simpa using this

/-- C6 witness: the amended claim at the wrapper-rooted tree `natC6`. -/
theorem c6_no_wrapper_skipping_witness :
    SasaTree.from_ptr natC6 = some treeC6 ∧
    treeC6.nodes.map Node.nodetype = natTypes (NativeForest.cons natC6 NativeForest.nil) :=
  ⟨rfl, c6_no_wrapper_skipping natC6 treeC6 rfl⟩

/-- C8: the claim says a node of the compared kind with no counterpart in
the other tree's identity map is skipped and never makes the comparison
fail.  Comparing `treeS1` (no residues at all, so no residue of the
subtree has a counterpart) against `treeS3` (one residue) panics instead:
the uid for the subtree's residue index 2 is read from `self.graph`
(`src/result/tree.rs`, line 155), whose `node_weight(2)` is `None`, and
the `unwrap` aborts the comparison — `none` models that panic. -/
theorem c8_unmatched_node_panics :
    SasaTree.from_ptr natS1 = some treeS1 ∧ SasaTree.from_ptr natS3 = some treeS3 ∧
    treeS1.residuePairs = [] ∧
    treeS1.compare_residues treeS3 (fun a b => NodeArea.sub b a) (fun _ => true) = none :=
  ⟨rfl, rfl, rfl, rfl⟩

/-- C5 counterexample: the claim says every trimmed, non-empty
residue-number string whose last character is non-numeric parses to a
number with that character as insertion code.  The string `A` is trimmed
and non-empty with non-numeric last character, but after splitting off
the insertion code nothing remains to parse, `.parse().unwrap()` panics,
and no pair is produced. -/
theorem c5_counterexample : parseResidueField ("A") = none := by decide

/-- C5 (amended): for every trimmed residue-number string on which
parsing succeeds, the insertion code is `some` of the last character
exactly when that character is non-numeric (with the string minus its
last character parsed as the signed number), and otherwise the insertion
code is `none` and the whole string is the parsed signed number. -/
theorem c5_residue_field_parse (s : String) (n : Int) (ic : Option Char)
    (htrim : rustTrim s = s) (h : parseResidueField s = some (n, ic)) :
    ∃ c, s.data.getLast? = some c ∧
      (if rustIsNumeric c then ic = none ∧ parseI32 s = some n
       else ic = some c ∧ parseI32 (dropLastStr s) = some n) := by
  simp only [parseResidueField, htrim] at h
  cases hl : s.data.getLast? with
  | none => rw [hl] at h; exact absurd h (by simp)
  | some c =>
    simp only [hl] at h
    refine ⟨c, rfl, ?_⟩
    by_cases hc : rustIsNumeric c
    · rw [if_pos hc] at h ⊢
      cases hp : parseI32 s with
      | none => rw [hp] at h; exact absurd h (by simp)
      | some m =>
        rw [hp] at h
        simp only [Option.map_some', Option.some.injEq, Prod.mk.injEq] at h
        exact ⟨h.2.symm, by rw [h.1]⟩
    · rw [if_neg hc] at h ⊢
      cases hp : parseI32 (dropLastStr s) with
      | none => rw [hp] at h; exact absurd h (by simp)
      | some m =>
        rw [hp] at h
        simp only [Option.map_some', Option.some.injEq, Prod.mk.injEq] at h
        exact ⟨h.2.symm, by rw [h.1]⟩

/-- C5 witness: the amended claim at the string `10A`, which parses to
residue number 10 with insertion code `A`. -/
theorem c5_residue_field_parse_witness :
    rustTrim ("10A") = "10A" ∧ parseResidueField ("10A") = some (10, some ('A')) ∧
    ∃ c, ("10A" : String).data.getLast? = some c ∧
      (if rustIsNumeric c then (some ('A') : Option Char) = none ∧ parseI32 ("10A") = some 10
       else (some ('A') : Option Char) = some c ∧ parseI32 (dropLastStr ("10A")) = some 10) :=
  ⟨by decide, by decide, c5_residue_field_parse ("10A") 10 (some ('A')) (by decide) (by decide)⟩

/-- C9 counterexample: the claim says a chain identity renders exactly as
`chain`.  The identity of chain A under structure model 1 renders as
`1:A`, not `A`: the rendering starts with the structure model number and
a colon. -/
theorem c9_counterexample :
    NodeUid.display { structure_ := 1, chain := some ('A'), res_id := none, atom_name := none }
      ≠ "A" := by decide

/-- C9 (amended): the textual rendering of a node identity is
`structure:chain` for chain identities, `structure:chain:resnum[inscode]`
for residue identities and `structure:chain:resnum[inscode]:atom_name`
for atom identities, and serializing a `NodeUid` emits exactly this
rendered string. -/
theorem c9_uid_rendering (st : Int) (c : Char) (r : Int) (ic : Option Char) (an : String) :
    (NodeUid.display { structure_ := st, chain := some c, res_id := none, atom_name := none }
      = toString st ++ (":") ++ String.singleton c)
  ∧ (NodeUid.display { structure_ := st, chain := some c, res_id := some (r, ic), atom_name := none }
      = toString st ++ (":") ++ String.singleton c ++ (":") ++ toString r ++ icText ic)
  ∧ (NodeUid.display
        { structure_ := st, chain := some c, res_id := some (r, ic), atom_name := some an }
      = toString st ++ (":") ++ String.singleton c ++ (":") ++ toString r ++ icText ic
          ++ (":") ++ an)
  ∧ (∀ u : NodeUid, NodeUid.serializedText u = NodeUid.display u) := by
  refine ⟨?_, ?_, ?_, fun u => rfl⟩ <;>
    rcases ic with _ | code <;>
      simp [NodeUid.display, string_push_eq, icText, String.append_empty, String.append_assoc,
        singleton_colon]

/-- C10 counterexample: the claim says nodes that agree on chain, residue
and atom fields but carry different structure model numbers are never
paired during comparison.  Comparing the model-2 tree against the model-1
tree pairs the model-2 residue (chain A, residue 1) with the model-1
residue of the same chain and number — the emitted node carries the
model-2 identity with the area delta 99 - 10 computed across the two
models, because the uid used for the subtree node is read from `self` at
the same node index (`src/result/tree.rs`, line 155). -/
theorem c10_counterexample :
    SasaTree.from_ptr natM2 = some treeM2 ∧ SasaTree.from_ptr natM1 = some treeM1 ∧
    (treeM2.compare_residues treeM1 (fun a b => NodeArea.sub b a) (fun _ => true)).map
        (fun l => l.map (fun nd => (nd.uid, nd.area)))
      = some [(some (ruid 2 ('A') 1),
               some (NodeArea.sub (NodeArea.ofTotal 99) (NodeArea.ofTotal 10)))] :=
  ⟨rfl, rfl, rfl⟩

/-- C10 (amended): the structure model number is the highest-precedence
component of a node identity: two `NodeUid`s that agree on every other
field but differ in it are distinct, the derived lexicographic ordering
is decided by it alone whenever it differs, and the rendered string is
the model number and a colon followed by a tail that does not depend on
the model number. -/
theorem c10_structure_precedence (s1 s2 : Int) (c c2 : Option Char)
    (r r2 : Option (Int × Option Char)) (a a2 : Option String) (h : s1 ≠ s2) :
    (NodeUid.mk s1 c r a ≠ NodeUid.mk s2 c r a)
  ∧ NodeUid.cmp (NodeUid.mk s1 c r a) (NodeUid.mk s2 c2 r2 a2) = cmpInt s1 s2
  ∧ NodeUid.display (NodeUid.mk s1 c r a)
      = toString s1 ++ (":") ++ NodeUid.displayTail c r a := by
  refine ⟨fun he => h (congrArg NodeUid.structure_ he), ?_, ?_⟩
  · unfold NodeUid.cmp
    rcases lt_trichotomy s1 s2 with h1 | h1 | h1
    · simp [cmpInt, h1, Ordering.then]
    · exact absurd h1 h
    · have hlt : ¬ s1 < s2 := not_lt.mpr h1.le
      simp [cmpInt, hlt, h, Ordering.then]
  · rcases c with _ | cv
    · simp [NodeUid.display, NodeUid.displayTail, String.append_empty]
    · rcases r with _ | rv
      · simp [NodeUid.display, NodeUid.displayTail, string_push_eq, String.append_assoc]
      · rcases a with _ | av <;> rcases rv with ⟨rn, _ | ricv⟩ <;>
          simp [NodeUid.display, NodeUid.displayTail, string_push_eq, singleton_colon,
            icText, String.append_empty, String.append_assoc]

/-- C10 witness: the amended claim at model numbers 1 and 2 over chain A. -/
theorem c10_structure_precedence_witness :
    (1 : Int) ≠ 2 ∧
    (NodeUid.mk 1 (some ('A')) none none ≠ NodeUid.mk 2 (some ('A')) none none) ∧
    NodeUid.cmp (NodeUid.mk 1 (some ('A')) none none) (NodeUid.mk 2 (some ('B')) none none)
      = cmpInt 1 2 ∧
    NodeUid.display (NodeUid.mk 1 (some ('A')) none none)
      = toString (1 : Int) ++ (":") ++ NodeUid.displayTail (some ('A')) none none := by
  have h := c10_structure_precedence 1 2 (some ('A')) (some ('B')) none none none none
    (by decide)
  exact ⟨by decide, h.1, h.2.1, h.2.2⟩
